import Mathlib

/-!
Verification of the CamProV5 motion-law core (`campro/models/movement_law.py`
and the repository's small `toml.py`) against its natural-language
specification.

Python floats are modelled as real numbers; a raised Python exception is
modelled as the `Except.error` branch of an `Except String` result.  The
kinematic functions translate the NumPy mask structure of the source into
an if-then-else chain over the normalized angle: the three masks
(rise, dwell, fall) are mutually exclusive and every remaining angle keeps
the initial `np.zeros_like` value 0.
-/

namespace CamPro

open Real

/-- The ten fields of the `MotionParameters` dataclass, in declaration order
(`movement_law.py`, lines 49-68).  Python float values are modelled as reals. -/
structure MotionParameters where
  base_circle_radius : ℝ
  max_lift : ℝ
  cam_duration : ℝ
  rise_duration : ℝ
  dwell_duration : ℝ
  fall_duration : ℝ
  jerk_limit : ℝ
  acceleration_limit : ℝ
  velocity_limit : ℝ
  rpm : ℝ

/-- Default field values of the dataclass, used by `from_dict` when a key is
absent (`movement_law.py`, lines 49-68). -/
def defaultRaw : MotionParameters :=
  ⟨25, 10, 180, 90, 45, 90, 1000, 500, 100, 3000⟩

/-- `MotionParameters.validate` (`movement_law.py`, lines 84-106): the exact
sequence of feasibility checks; the first failing check raises `ValueError`
with its message.  Note that the summed duration is only checked against the
upper bound 360; there is no lower-bound check here. -/
noncomputable def validate (p : MotionParameters) : Except String Unit :=
  if p.base_circle_radius ≤ 0 then .error "Base circle radius must be positive"
  else if p.max_lift ≤ 0 then .error "Maximum lift must be positive"
  else if p.rise_duration < 0 then .error "Rise duration must be non-negative"
  else if p.dwell_duration < 0 then .error "Dwell duration must be non-negative"
  else if p.fall_duration < 0 then .error "Fall duration must be non-negative"
  else if p.rpm ≤ 0 then .error "RPM must be positive"
  else if p.rise_duration + p.dwell_duration + p.fall_duration > 360 then
    .error "Total cam duration must not exceed 360 degrees"
  else .ok ()

/-- The normalisation step of `__post_init__` (`movement_law.py`, lines 79-81):
`cam_duration` is overwritten with the sum of the three segment durations. -/
noncomputable def normalizeCam (p : MotionParameters) : MotionParameters :=
  { p with cam_duration := p.rise_duration + p.dwell_duration + p.fall_duration }

/-- `MotionParameters.__post_init__` (`movement_law.py`, lines 70-82):
dataclass construction first overwrites `cam_duration` with the sum of the
three segment durations, then runs `validate`.  The argument record holds the
caller-supplied field values (defaults filled in by the caller). -/
noncomputable def mkMotionParameters (p : MotionParameters) : Except String MotionParameters :=
  match validate (normalizeCam p) with
  | .error e => .error e
  | .ok _ => .ok (normalizeCam p)

/-- `MotionLaw._validate_parameters` (`movement_law.py`, lines 194-218): the
redundant validation run at `MotionLaw` construction.  Unlike
`MotionParameters.validate`, it also rejects a non-positive total duration. -/
noncomputable def motionLawValidate (p : MotionParameters) : Except String Unit :=
  if p.max_lift ≤ 0 then .error "Maximum lift must be positive"
  else if p.base_circle_radius ≤ 0 then .error "Base circle radius must be positive"
  else if p.rise_duration < 0 then .error "Rise duration must be non-negative"
  else if p.dwell_duration < 0 then .error "Dwell duration must be non-negative"
  else if p.fall_duration < 0 then .error "Fall duration must be non-negative"
  else if p.rise_duration + p.dwell_duration + p.fall_duration ≤ 0 then
    .error "Total cam duration must be positive"
  else if p.rise_duration + p.dwell_duration + p.fall_duration > 360 then
    .error "Total cam duration must not exceed 360 degrees"
  else if p.rpm ≤ 0 then .error "RPM must be positive"
  else .ok ()

/-- Derived `total_duration` computed at `MotionLaw` construction
(`movement_law.py`, lines 187-189). -/
noncomputable def totalDuration (p : MotionParameters) : ℝ :=
  p.rise_duration + p.dwell_duration + p.fall_duration

/-- Derived angular velocity `omega = 2*pi*rpm/60` in rad/s
(`movement_law.py`, line 186). -/
noncomputable def omega (p : MotionParameters) : ℝ :=
  2 * π * p.rpm / 60

/-- The `deg_to_rad = pi/180` conversion factor used inside the derivative
formulas (`movement_law.py`, line 281 and analogues). -/
noncomputable def degToRad : ℝ := π / 180

/-- `np.mod(theta, 360.0)`: reduction of the cam angle modulo 360, landing in
`[0, 360)` for every real input (NumPy mod takes the sign of the divisor). -/
noncomputable def thetaNorm (θ : ℝ) : ℝ :=
  θ - 360 * ⌊θ / 360⌋

/-- `MotionLaw.displacement` (`movement_law.py`, lines 222-263).  The three
NumPy masks are mutually exclusive; entries matching no mask keep the
`np.zeros_like` value 0, so the mask assignments are an if-then-else chain on
the normalized angle.  This real-valued model agrees with the NumPy
computation whenever every division it reaches has a nonzero denominator
(all claims below that use it stay in that regime); the NaN-propagating model
further down captures the zero-denominator cases. -/
noncomputable def displacement (p : MotionParameters) (θ : ℝ) : ℝ :=
  let θn := thetaNorm θ
  if θn ≤ p.rise_duration then
    let β := θn / p.rise_duration
    p.max_lift * (β - Real.sin (2 * π * β) / (2 * π))
  else if θn ≤ p.rise_duration + p.dwell_duration then
    p.max_lift
  else if θn ≤ totalDuration p then
    let β := (θn - (p.rise_duration + p.dwell_duration)) / p.fall_duration
    p.max_lift * (1 - (β - Real.sin (2 * π * β) / (2 * π)))
  else 0

/-- `MotionLaw.velocity` (`movement_law.py`, lines 265-311), same mask
structure; the fall branch carries the negated sign of the rise branch. -/
noncomputable def velocity (p : MotionParameters) (θ : ℝ) : ℝ :=
  let θn := thetaNorm θ
  if θn ≤ p.rise_duration then
    let β := θn / p.rise_duration
    p.max_lift * (1 / p.rise_duration) * (1 - Real.cos (2 * π * β)) * omega p * degToRad
  else if θn ≤ p.rise_duration + p.dwell_duration then
    0
  else if θn ≤ totalDuration p then
    let β := (θn - (p.rise_duration + p.dwell_duration)) / p.fall_duration;
    -p.max_lift * (1 / p.fall_duration) * (1 - Real.cos (2 * π * β)) * omega p * degToRad
  else 0

/-- `MotionLaw.acceleration` (`movement_law.py`, lines 313-359); the rise and
fall branches carry the same sign. -/
noncomputable def acceleration (p : MotionParameters) (θ : ℝ) : ℝ :=
  let θn := thetaNorm θ
  if θn ≤ p.rise_duration then
    let β := θn / p.rise_duration
    p.max_lift * (1 / p.rise_duration) ^ 2 * (2 * π) * Real.sin (2 * π * β) *
      (omega p * degToRad) ^ 2
  else if θn ≤ p.rise_duration + p.dwell_duration then
    0
  else if θn ≤ totalDuration p then
    let β := (θn - (p.rise_duration + p.dwell_duration)) / p.fall_duration
    p.max_lift * (1 / p.fall_duration) ^ 2 * (2 * π) * Real.sin (2 * π * β) *
      (omega p * degToRad) ^ 2
  else 0

/-- `MotionLaw.jerk` (`movement_law.py`, lines 361-407); the fall branch
carries the negated sign of the rise branch. -/
noncomputable def jerk (p : MotionParameters) (θ : ℝ) : ℝ :=
  let θn := thetaNorm θ
  if θn ≤ p.rise_duration then
    let β := θn / p.rise_duration
    p.max_lift * (1 / p.rise_duration) ^ 3 * (4 * π ^ 2) * Real.cos (2 * π * β) *
      (omega p * degToRad) ^ 3
  else if θn ≤ p.rise_duration + p.dwell_duration then
    0
  else if θn ≤ totalDuration p then
    let β := (θn - (p.rise_duration + p.dwell_duration)) / p.fall_duration;
    -p.max_lift * (1 / p.fall_duration) ^ 3 * (4 * π ^ 2) * Real.cos (2 * π * β) *
      (omega p * degToRad) ^ 3
  else 0

/-- A Python value as it can appear in a deserialized parameter dictionary.
`pbool` is kept separate because Python `bool` is a subclass of `int`: an
`isinstance(v, (int, float))` check accepts `True` and `False`, and boolean
values behave as the integers 1 and 0 in arithmetic and comparisons. -/
inductive PyVal where
  | pfloat (x : ℝ)
  | pint (n : ℤ)
  | pbool (b : Bool)
  | pstr (s : String)

/-- A string-keyed Python dictionary gathered by the parsers.  Insertion
`result[key] = value` is modelled by consing to the front, so a lookup that
takes the first match sees the most recent binding, exactly as a Python dict
overwrite does. -/
def PyDict := List (String × PyVal)

/-- Dictionary lookup (first match = most recently inserted binding). -/
def pyLookup (data : PyDict) (name : String) : Option PyVal :=
  match data with
  | [] => none
  | (k, v) :: rest => if name = k then some v else pyLookup rest name

/-- The `isinstance(value, (int, float))` test of `_validate_data`
(`movement_law.py`, line 133).  `True`/`False` pass because Python `bool`
is a subclass of `int`. -/
def isPyNumber : PyVal → Bool
  | .pfloat _ => true
  | .pint _ => true
  | .pbool _ => true
  | .pstr _ => false

/-- Numeric value of a Python number (float, int, or bool).  `None` for a
string, which is not a number. -/
noncomputable def pyNum : PyVal → Option ℝ
  | .pfloat x => some x
  | .pint n => some (n : ℝ)
  | .pbool b => some (if b then 1 else 0)
  | .pstr _ => none

/-- One serialized TOML value token, as classified by the branch structure of
`toml.loads` (`toml.py`, lines 37-48): a double-quoted string, a bare
`true`/`false`, a numeric literal containing a dot or an `e` (parsed by
`float`), a numeric literal without either (parsed by `int`), or a token that
both conversions reject.  The character-level lexing (blank lines, comments,
the mandatory `=`, quote stripping, and the exact decimal rendering of
Python's `str`/`float`/`int` built-ins, which round-trip finite floats
exactly) is abstracted into this token type; each constructor corresponds to
exactly one branch of `loads`. -/
inductive TomlToken where
  | quoted (s : String)
  | boolTok (b : Bool)
  | floatTok (x : ℝ)
  | intTok (n : ℤ)
  | badTok (s : String)

/-- A serialized TOML document: one `key = value` line per entry. -/
def TomlDoc := List (String × TomlToken)

/-- The `asdict` conversion (`MotionParameters.to_dict`, `movement_law.py`,
lines 108-110): every dataclass field, in declaration order, as a Python
float. -/
noncomputable def toDict (p : MotionParameters) : PyDict :=
  [("base_circle_radius", .pfloat p.base_circle_radius),
   ("max_lift", .pfloat p.max_lift),
   ("cam_duration", .pfloat p.cam_duration),
   ("rise_duration", .pfloat p.rise_duration),
   ("dwell_duration", .pfloat p.dwell_duration),
   ("fall_duration", .pfloat p.fall_duration),
   ("jerk_limit", .pfloat p.jerk_limit),
   ("acceleration_limit", .pfloat p.acceleration_limit),
   ("velocity_limit", .pfloat p.velocity_limit),
   ("rpm", .pfloat p.rpm)]

/-- Value rendering in `toml.dumps` (`toml.py`, lines 11-19): strings are
quoted, bools become bare `true`/`false` (checked before the generic branch,
matching the `isinstance` order), every other value is rendered with `str` —
`str` of a finite float always contains a dot or an `e`, and `str` of an int
contains neither, fixing the token class that `loads` will see. -/
def renderTok : PyVal → TomlToken
  | .pstr s => .quoted s
  | .pbool b => .boolTok b
  | .pfloat x => .floatTok x
  | .pint n => .intTok n

/-- `toml.dumps` (`toml.py`, lines 6-20): one `key = value` line per dict
entry, in order. -/
def tomlDumps (data : PyDict) : TomlDoc :=
  data.map (fun kv => (kv.1, renderTok kv.2))

/-- Value parsing in `toml.loads` (`toml.py`, lines 37-48): quoted tokens
become strings, `true`/`false` become bools, dotted/exponent tokens are
parsed by `float`, bare integer tokens by `int`, and anything else raises
`TomlDecodeError`. -/
def parseTok : TomlToken → Except String PyVal
  | .quoted s => .ok (.pstr s)
  | .boolTok b => .ok (.pbool b)
  | .floatTok x => .ok (.pfloat x)
  | .intTok n => .ok (.pint n)
  | .badTok s => .error ("could not convert string to float: " ++ s)

/-- `toml.loads` (`toml.py`, lines 23-49): fold over the lines, building the
result dictionary; the first undecodable value aborts with
`TomlDecodeError`. -/
def tomlLoads : TomlDoc → PyDict → Except String PyDict
  | [], acc => .ok acc
  | (k, t) :: rest, acc =>
    match parseTok t with
    | .error e => .error e
    | .ok v => tomlLoads rest ((k, v) :: acc)

/-- `MotionParameters._validate_data` (`movement_law.py`, lines 120-134):
first every required field must be present (first missing one is reported by
name), then every required field must satisfy the `isinstance(v, (int,
float))` number check (first offender reported by name). -/
def requiredFields : List String :=
  ["base_circle_radius", "max_lift", "rise_duration",
   "dwell_duration", "fall_duration", "rpm"]

/-- Field list accepted as keyword arguments by the dataclass constructor. -/
def fieldNames : List String :=
  ["base_circle_radius", "max_lift", "cam_duration", "rise_duration",
   "dwell_duration", "fall_duration", "jerk_limit", "acceleration_limit",
   "velocity_limit", "rpm"]

/-- See `requiredFields`: the body of `_validate_data`. -/
def validateData (data : PyDict) : Except String Unit :=
  match requiredFields.find? (fun f => (pyLookup data f).isNone) with
  | some f => .error ("Missing required field: " ++ f)
  | none =>
    match requiredFields.find?
        (fun f => match pyLookup data f with
          | some v => !(isPyNumber v)
          | none => false) with
    | some f => .error ("Field " ++ f ++ " must be a number")
    | none => .ok ()

/-- Field extraction performed by `cls(**data)`: an absent key falls back to
the dataclass default, a numeric value (float, int, or bool) is stored and
subsequently behaves as its numeric value in all comparisons, arithmetic, and
equality checks.  A string value would only blow up later, inside
`validate`'s comparisons (a `TypeError`, modelled as the error branch); the
deserialization paths never reach that case because `_validate_data` rejects
strings first. -/
noncomputable def getField (data : PyDict) (name : String) (dflt : ℝ) : Except String ℝ :=
  match pyLookup data name with
  | none => .ok dflt
  | some v =>
    match pyNum v with
    | some x => .ok x
    | none => .error ("unsupported operand type for field " ++ name)

/-- `MotionParameters.from_dict` (`movement_law.py`, lines 136-139), i.e.
`cls(**data)`: a key outside the dataclass fields raises `TypeError`;
otherwise every field takes the supplied value or its default and
`__post_init__` (normalisation plus validation) runs. -/
noncomputable def fromDict (data : PyDict) : Except String MotionParameters :=
  match data.find? (fun kv => !(fieldNames.contains kv.1)) with
  | some kv => .error ("unexpected keyword argument: " ++ kv.1)
  | none => do
    let base ← getField data "base_circle_radius" 25
    let lift ← getField data "max_lift" 10
    let cam ← getField data "cam_duration" 180
    let rise ← getField data "rise_duration" 90
    let dwell ← getField data "dwell_duration" 45
    let fall ← getField data "fall_duration" 90
    let jl ← getField data "jerk_limit" 1000
    let al ← getField data "acceleration_limit" 500
    let vl ← getField data "velocity_limit" 100
    let rpm ← getField data "rpm" 3000
    mkMotionParameters ⟨base, lift, cam, rise, dwell, fall, jl, al, vl, rpm⟩

/-- `MotionParameters.to_toml` (`movement_law.py`, lines 116-118). -/
noncomputable def toToml (p : MotionParameters) : TomlDoc :=
  tomlDumps (toDict p)

/-- `MotionParameters.from_toml` (`movement_law.py`, lines 153-163): parse,
validate the field map, construct.  A `TomlDecodeError` is re-raised as
`ValueError("Invalid TOML format: ...")`; every other exception (missing
field, non-numeric field, failed construction validation) is re-raised as
`ValueError("Error parsing TOML: ...")`. -/
noncomputable def fromToml (doc : TomlDoc) : Except String MotionParameters :=
  match tomlLoads doc [] with
  | .error e => .error ("Invalid TOML format: " ++ e)
  | .ok data =>
    match validateData data with
    | .error e => .error ("Error parsing TOML: " ++ e)
    | .ok _ =>
      match fromDict data with
      | .error e => .error ("Error parsing TOML: " ++ e)
      | .ok p => .ok p

/-- Modelled from the spec: Python's standard `json` module is not part of
this repository.  The spec describes the JSON-like encoding as a flat
one-key-per-field object whose numeric values round-trip exactly, so a
serialized JSON document is modelled as the string-keyed map it denotes;
`json.dumps` produces it and `json.loads` recovers it unchanged. -/
noncomputable def jsonDumps (data : PyDict) : PyDict := data

/-- Modelled from the spec: `json.loads` on a well-formed document yields the
map the document denotes (a malformed document would raise
`JSONDecodeError`, a case outside this model's document type). -/
noncomputable def jsonLoads (doc : PyDict) : Except String PyDict := .ok doc

/-- `MotionParameters.to_json` (`movement_law.py`, lines 112-114). -/
noncomputable def toJson (p : MotionParameters) : PyDict :=
  jsonDumps (toDict p)

/-- `MotionParameters.from_json` (`movement_law.py`, lines 141-151): same
structure as `from_toml` with the JSON wordings. -/
noncomputable def fromJson (doc : PyDict) : Except String MotionParameters :=
  match jsonLoads doc with
  | .error e => .error ("Invalid JSON format: " ++ e)
  | .ok data =>
    match validateData data with
    | .error e => .error ("Error parsing JSON: " ++ e)
    | .ok _ =>
      match fromDict data with
      | .error e => .error ("Error parsing JSON: " ++ e)
      | .ok p => .ok p

/-- The record that successful construction from the default inputs yields:
`cam_duration` is normalised to `90 + 45 + 90 = 225`.  These are also the
parameters of the spec's concrete scenario 1. -/
noncomputable def p225 : MotionParameters :=
  ⟨25, 10, 225, 90, 45, 90, 1000, 500, 100, 3000⟩

/-- A validated parameter record with `rise_duration = 0` and a positive
total duration, the configuration named by the spec's angle-evaluation
safety discussion. -/
noncomputable def p0rise : MotionParameters :=
  ⟨25, 10, 135, 0, 45, 90, 1000, 500, 100, 3000⟩

/-- A well-formed serialized document whose mandatory `max_lift` field holds
the boolean literal `true`. -/
noncomputable def boolDoc : TomlDoc :=
  [("base_circle_radius", .floatTok 25), ("max_lift", .boolTok true),
   ("rise_duration", .floatTok 90), ("dwell_duration", .floatTok 45),
   ("fall_duration", .floatTok 90), ("rpm", .floatTok 3000)]

/-- A parsed document map holding a number for every mandatory field. -/
noncomputable def goodData : PyDict :=
  [("base_circle_radius", .pfloat 25), ("max_lift", .pfloat 10),
   ("rise_duration", .pfloat 90), ("dwell_duration", .pfloat 45),
   ("fall_duration", .pfloat 90), ("rpm", .pfloat 3000)]

/-- An IEEE-754 style value as NumPy element-wise arithmetic produces it:
a finite number, a signed infinity, or NaN.  NumPy array arithmetic raises
no exception on a zero denominator; it emits a warning and produces
`inf`/`-inf`/`nan` values.  Signed zeros are not distinguished (the only
divisions in the translated code have raw non-negative durations or the
positive constant `2*pi` as denominators). -/
inductive NpF where
  | num (x : ℝ)
  | posinf
  | neginf
  | nan

/-- IEEE negation. -/
noncomputable def npNeg : NpF → NpF
  | .num x => .num (-x)
  | .posinf => .neginf
  | .neginf => .posinf
  | .nan => .nan

/-- IEEE addition: NaN propagates, opposite infinities give NaN. -/
noncomputable def npAdd : NpF → NpF → NpF
  | .nan, _ => .nan
  | _, .nan => .nan
  | .num x, .num y => .num (x + y)
  | .num _, .posinf => .posinf
  | .num _, .neginf => .neginf
  | .posinf, .num _ => .posinf
  | .neginf, .num _ => .neginf
  | .posinf, .posinf => .posinf
  | .neginf, .neginf => .neginf
  | .posinf, .neginf => .nan
  | .neginf, .posinf => .nan

/-- IEEE subtraction, as negated addition. -/
noncomputable def npSub (a b : NpF) : NpF := npAdd a (npNeg b)

/-- IEEE multiplication: NaN propagates, zero times infinity gives NaN,
otherwise infinities keep the sign rule. -/
noncomputable def npMul : NpF → NpF → NpF
  | .nan, _ => .nan
  | _, .nan => .nan
  | .num x, .num y => .num (x * y)
  | .num x, .posinf => if x = 0 then .nan else if 0 < x then .posinf else .neginf
  | .num x, .neginf => if x = 0 then .nan else if 0 < x then .neginf else .posinf
  | .posinf, .num y => if y = 0 then .nan else if 0 < y then .posinf else .neginf
  | .neginf, .num y => if y = 0 then .nan else if 0 < y then .neginf else .posinf
  | .posinf, .posinf => .posinf
  | .posinf, .neginf => .neginf
  | .neginf, .posinf => .neginf
  | .neginf, .neginf => .posinf

/-- IEEE division: NaN propagates, `0/0` gives NaN, a nonzero numerator over
zero gives a signed infinity (NumPy emits a warning, not an exception), a
finite numerator over an infinity gives 0, infinity over infinity gives
NaN. -/
noncomputable def npDiv : NpF → NpF → NpF
  | .nan, _ => .nan
  | _, .nan => .nan
  | .num x, .num y =>
    if y = 0 then (if x = 0 then .nan else if 0 < x then .posinf else .neginf)
    else .num (x / y)
  | .num _, .posinf => .num 0
  | .num _, .neginf => .num 0
  | .posinf, .num y => if 0 ≤ y then .posinf else .neginf
  | .neginf, .num y => if 0 ≤ y then .neginf else .posinf
  | .posinf, _ => .nan
  | .neginf, _ => .nan

/-- IEEE sine: NaN on NaN or infinite arguments. -/
noncomputable def npSin : NpF → NpF
  | .num x => .num (Real.sin x)
  | _ => .nan

/-- IEEE cosine: NaN on NaN or infinite arguments. -/
noncomputable def npCos : NpF → NpF
  | .num x => .num (Real.cos x)
  | _ => .nan

/-- NaN-aware model of `MotionLaw.displacement` (`movement_law.py`, lines
222-263) under NumPy array semantics.  A raised Python exception would be
the `.error` branch; every arithmetic operation, division by zero included,
is total and produces an `NpF` value, so no branch raises.  The mask
conditions compare the (always finite) normalized angle, as in the
source. -/
noncomputable def displacementN (p : MotionParameters) (θ : ℝ) : Except String NpF :=
  let θn := thetaNorm θ
  if θn ≤ p.rise_duration then
    let β := npDiv (.num θn) (.num p.rise_duration)
    .ok (npMul (.num p.max_lift)
      (npSub β (npDiv (npSin (npMul (.num (2 * π)) β)) (.num (2 * π)))))
  else if θn ≤ p.rise_duration + p.dwell_duration then
    .ok (.num p.max_lift)
  else if θn ≤ totalDuration p then
    let β := npDiv (.num (θn - (p.rise_duration + p.dwell_duration))) (.num p.fall_duration)
    .ok (npMul (.num p.max_lift)
      (npSub (.num 1) (npSub β (npDiv (npSin (npMul (.num (2 * π)) β)) (.num (2 * π))))))
  else .ok (.num 0)

/-- NaN-aware model of `MotionLaw.velocity` (`movement_law.py`, lines
265-311).  `beta` is a NumPy array division (never raises; NaN on `0/0`),
but `dbeta_dtheta = 1.0 / segment_duration` (line 288, line 305) is plain
Python scalar division: it raises `ZeroDivisionError` when the segment
duration is zero and the branch is entered.  The guard sits at branch entry
because the preceding array division cannot raise.  The scalar factors of
the product (`max_lift`, `dbeta_dtheta`, `omega`, `deg_to_rad`) collapse to
one real number; the array factor `1 - cos(2*pi*beta)` stays `NpF`. -/
noncomputable def velocityN (p : MotionParameters) (θ : ℝ) : Except String NpF :=
  let θn := thetaNorm θ
  if θn ≤ p.rise_duration then
    if p.rise_duration = 0 then .error "float division by zero"
    else
      let β := npDiv (.num θn) (.num p.rise_duration)
      .ok (npMul (npMul (npMul (.num (p.max_lift * (1 / p.rise_duration)))
        (npSub (.num 1) (npCos (npMul (.num (2 * π)) β)))) (.num (omega p))) (.num degToRad))
  else if θn ≤ p.rise_duration + p.dwell_duration then
    .ok (.num 0)
  else if θn ≤ totalDuration p then
    if p.fall_duration = 0 then .error "float division by zero"
    else
      let β := npDiv (.num (θn - (p.rise_duration + p.dwell_duration))) (.num p.fall_duration)
      .ok (npMul (npMul (npMul (.num (-p.max_lift * (1 / p.fall_duration)))
        (npSub (.num 1) (npCos (npMul (.num (2 * π)) β)))) (.num (omega p))) (.num degToRad))
  else .ok (.num 0)

/-- NaN-aware model of `MotionLaw.acceleration` (`movement_law.py`, lines
313-359): the scalar division `dbeta_dtheta = 1.0 / segment_duration`
(line 336, line 353) raises `ZeroDivisionError` on a zero duration, exactly
as in `velocityN`; `dbeta_dtheta ** 2` is scalar arithmetic and collapses
into the real prefactor. -/
noncomputable def accelerationN (p : MotionParameters) (θ : ℝ) : Except String NpF :=
  let θn := thetaNorm θ
  if θn ≤ p.rise_duration then
    if p.rise_duration = 0 then .error "float division by zero"
    else
      let β := npDiv (.num θn) (.num p.rise_duration)
      .ok (npMul (npMul (.num (p.max_lift * (1 / p.rise_duration) ^ 2 * (2 * π)))
        (npSin (npMul (.num (2 * π)) β))) (.num ((omega p * degToRad) ^ 2)))
  else if θn ≤ p.rise_duration + p.dwell_duration then
    .ok (.num 0)
  else if θn ≤ totalDuration p then
    if p.fall_duration = 0 then .error "float division by zero"
    else
      let β := npDiv (.num (θn - (p.rise_duration + p.dwell_duration))) (.num p.fall_duration)
      .ok (npMul (npMul (.num (p.max_lift * (1 / p.fall_duration) ^ 2 * (2 * π)))
        (npSin (npMul (.num (2 * π)) β))) (.num ((omega p * degToRad) ^ 2)))
  else .ok (.num 0)

/-- NaN-aware model of `MotionLaw.jerk` (`movement_law.py`, lines 361-407):
the scalar division `dbeta_dtheta = 1.0 / segment_duration` (line 384,
line 401) raises `ZeroDivisionError` on a zero duration, exactly as in
`velocityN`. -/
noncomputable def jerkN (p : MotionParameters) (θ : ℝ) : Except String NpF :=
  let θn := thetaNorm θ
  if θn ≤ p.rise_duration then
    if p.rise_duration = 0 then .error "float division by zero"
    else
      let β := npDiv (.num θn) (.num p.rise_duration)
      .ok (npMul (npMul (.num (p.max_lift * (1 / p.rise_duration) ^ 3 * (4 * π ^ 2)))
        (npCos (npMul (.num (2 * π)) β))) (.num ((omega p * degToRad) ^ 3)))
  else if θn ≤ p.rise_duration + p.dwell_duration then
    .ok (.num 0)
  else if θn ≤ totalDuration p then
    if p.fall_duration = 0 then .error "float division by zero"
    else
      let β := npDiv (.num (θn - (p.rise_duration + p.dwell_duration))) (.num p.fall_duration)
      .ok (npMul (npMul (.num (-p.max_lift * (1 / p.fall_duration) ^ 3 * (4 * π ^ 2)))
        (npCos (npMul (.num (2 * π)) β))) (.num ((omega p * degToRad) ^ 3)))
  else .ok (.num 0)

/-- `np.linspace(a, b, n)`: `n` evenly spaced samples from `a` to `b`
inclusive (`movement_law.py`, line 419). -/
noncomputable def linspace (a b : ℝ) (n : ℕ) : List ℝ :=
  (List.range n).map (fun i => a + (b - a) * i / (n - 1))

/-- `np.max(np.abs(v))` over a sample list; seeding the fold with 0 equals
the NumPy maximum because every absolute value is non-negative (and the
sample list is never empty). -/
noncomputable def maxAbs (l : List ℝ) : ℝ :=
  (l.map (fun x => |x|)).foldl max 0

/-- `np.sqrt(np.mean(a ** 2))` over a sample list. -/
noncomputable def rms (l : List ℝ) : ℝ :=
  Real.sqrt ((l.map (fun x => x ^ 2)).sum / l.length)

/-- The summary scalars and violation flags of
`MotionLaw.analyze_kinematics` (`movement_law.py`, lines 409-450) that the
optimizer's objective function reads. -/
structure KinematicAnalysis where
  maxVelocity : ℝ
  maxAcceleration : ℝ
  maxJerk : ℝ
  rmsAcceleration : ℝ
  rmsJerk : ℝ
  velocityViolation : Prop
  accelerationViolation : Prop
  jerkViolation : Prop

/-- `MotionLaw.analyze_kinematics` (`movement_law.py`, lines 409-450):
sample the kinematic functions on `numPoints` angles spanning
`[0, total_duration]`, then take absolute maxima, RMS values, and the
limit-violation flags.  The real-valued kinematic model is used (the
optimizer claims below never inspect these values). -/
noncomputable def analyzeKinematics (p : MotionParameters) (numPoints : ℕ) :
    KinematicAnalysis :=
  let θs := linspace 0 (totalDuration p) numPoints
  let v := θs.map (velocity p)
  let a := θs.map (acceleration p)
  let j := θs.map (jerk p)
  { maxVelocity := maxAbs v
    maxAcceleration := maxAbs a
    maxJerk := maxAbs j
    rmsAcceleration := rms a
    rmsJerk := rms j
    velocityViolation := maxAbs v > p.velocity_limit
    accelerationViolation := maxAbs a > p.acceleration_limit
    jerkViolation := maxAbs j > p.jerk_limit }

open Classical in
/-- The body of the `try` block of `MotionOptimizer.objective_function`
(`movement_law.py`, lines 543-581): build the candidate record from the
search vector `(x0, x1, x2)` and the fixed baseline fields (`cam_duration`
is not passed, so the dataclass default 180 applies before normalisation),
construct the `MotionLaw` (which re-validates), analyze, add the
`1000 × excess` penalty per violated limit, and dispatch on the objective
name — an unknown name raises `ValueError`.  Any raised exception appears
as the `.error` branch. -/
noncomputable def objectiveCompute (base : MotionParameters) (x0 x1 x2 : ℝ)
    (objectiveType : String) : Except String ℝ := do
  let params ← mkMotionParameters
    ⟨base.base_circle_radius, x0, 180, x1, base.dwell_duration, x2,
     base.jerk_limit, base.acceleration_limit, base.velocity_limit, base.rpm⟩
  _ ← motionLawValidate params
  let analysis := analyzeKinematics params 1000
  let penalty : ℝ :=
    (if analysis.velocityViolation then
      1000 * (analysis.maxVelocity - params.velocity_limit) else 0) +
    (if analysis.accelerationViolation then
      1000 * (analysis.maxAcceleration - params.acceleration_limit) else 0) +
    (if analysis.jerkViolation then
      1000 * (analysis.maxJerk - params.jerk_limit) else 0)
  let objective ←
    if objectiveType = "rms_acceleration" then pure analysis.rmsAcceleration
    else if objectiveType = "max_jerk" then pure analysis.maxJerk
    else if objectiveType = "energy" then pure (analysis.rmsAcceleration ^ 2)
    else Except.error ("Unknown objective type: " ++ objectiveType)
  return objective + penalty

/-- `MotionOptimizer.objective_function` (`movement_law.py`, lines 532-585):
the whole computation sits in a `try` whose handler is `except Exception`,
so every raised error — not only the candidate-construction validation
error — is converted to the large sentinel `1e6`. -/
noncomputable def objectiveFunction (base : MotionParameters) (x0 x1 x2 : ℝ)
    (objectiveType : String) : ℝ :=
  match objectiveCompute base x0 x1 x2 objectiveType with
  | .ok v => v
  | .error _ => 1000000

/-- Unpacking lemma: what a successful `validate` says about the fields. -/
theorem validate_ok_iff (p : MotionParameters) :
    validate p = .ok () ↔
      0 < p.base_circle_radius ∧ 0 < p.max_lift ∧ 0 ≤ p.rise_duration ∧
      0 ≤ p.dwell_duration ∧ 0 ≤ p.fall_duration ∧ 0 < p.rpm ∧
      p.rise_duration + p.dwell_duration + p.fall_duration ≤ 360 := by
  unfold validate
  split_ifs with h1 h2 h3 h4 h5 h6 h7
  · simp only [reduceCtorEq, false_iff]; rintro ⟨hb, -, -, -, -, -, -⟩; linarith
  · simp only [reduceCtorEq, false_iff]; rintro ⟨-, hl, -, -, -, -, -⟩; linarith
  · simp only [reduceCtorEq, false_iff]; rintro ⟨-, -, hr, -, -, -, -⟩; linarith
  · simp only [reduceCtorEq, false_iff]; rintro ⟨-, -, -, hd, -, -, -⟩; linarith
  · simp only [reduceCtorEq, false_iff]; rintro ⟨-, -, -, -, hf, -, -⟩; linarith
  · simp only [reduceCtorEq, false_iff]; rintro ⟨-, -, -, -, -, hm, -⟩; linarith
  · simp only [reduceCtorEq, false_iff]; rintro ⟨-, -, -, -, -, -, ht⟩; linarith
  · push_neg at h1 h2 h3 h4 h5 h6 h7
    simp only [true_iff]
    exact ⟨h1, h2, h3, h4, h5, h6, h7⟩

/-- Unpacking lemma: a successful construction returns the input record with
`cam_duration` overwritten, and that record passes `validate`. -/
theorem mkMotionParameters_ok (p q : MotionParameters)
    (h : mkMotionParameters p = .ok q) :
    q = normalizeCam p ∧ validate q = .ok () := by
  unfold mkMotionParameters at h
  cases hv : validate (normalizeCam p) with
  | error e => rw [hv] at h; exact absurd h (by simp)
  | ok u =>
    rw [hv] at h
    simp only [Except.ok.injEq] at h
    cases u
    exact ⟨h.symm, h ▸ hv⟩

/-- The normalized angle is the identity on `[0, 360)`. -/
theorem thetaNorm_eq_self {θ : ℝ} (h0 : 0 ≤ θ) (h1 : θ < 360) : thetaNorm θ = θ := by
  unfold thetaNorm
  have : ⌊θ / 360⌋ = 0 := by
    rw [Int.floor_eq_zero_iff]
    constructor
    · positivity
    · rw [div_lt_one (by norm_num)]; linarith
  rw [this]
  ring

/-- The normalized angle is never negative. -/
theorem thetaNorm_nonneg (θ : ℝ) : 0 ≤ thetaNorm θ := by
  unfold thetaNorm
  have h := Int.floor_le (θ / 360)
  have h2 := mul_le_mul_of_nonneg_left h (by norm_num : (0 : ℝ) ≤ 360)
  rw [mul_div_cancel₀ θ (by norm_num : (360 : ℝ) ≠ 0)] at h2
  linarith

/-- Inversion for a successful monadic bind over `Except String`. -/
theorem except_bind_ok {α β : Type} {x : Except String α} {f : α → Except String β} {b : β}
    (h : x >>= f = .ok b) : ∃ a, x = .ok a ∧ f a = .ok b := by
  cases x with
  | error e => simp [Bind.bind, Except.bind] at h
  | ok a => exact ⟨a, rfl, by simpa [Bind.bind, Except.bind] using h⟩

/-- Every record produced by `fromDict` comes out of the dataclass
constructor `mkMotionParameters`. -/
theorem fromDict_ok (data : PyDict) (q : MotionParameters) (h : fromDict data = .ok q) :
    ∃ r, mkMotionParameters r = .ok q := by
  unfold fromDict at h
  split at h
  · exact absurd h (by simp)
  · obtain ⟨base, -, h⟩ := except_bind_ok h
    obtain ⟨lift, -, h⟩ := except_bind_ok h
    obtain ⟨cam, -, h⟩ := except_bind_ok h
    obtain ⟨rise, -, h⟩ := except_bind_ok h
    obtain ⟨dwell, -, h⟩ := except_bind_ok h
    obtain ⟨fall, -, h⟩ := except_bind_ok h
    obtain ⟨jl, -, h⟩ := except_bind_ok h
    obtain ⟨al, -, h⟩ := except_bind_ok h
    obtain ⟨vl, -, h⟩ := except_bind_ok h
    obtain ⟨rpm, -, h⟩ := except_bind_ok h
    exact ⟨_, h⟩

/-- Every record produced by `fromToml` comes out of `fromDict`. -/
theorem fromToml_ok (doc : TomlDoc) (q : MotionParameters) (h : fromToml doc = .ok q) :
    ∃ data, fromDict data = .ok q := by
  unfold fromToml at h
  split at h
  · exact absurd h (by simp)
  · rename_i data heq1
    split at h
    · exact absurd h (by simp)
    · split at h
      · exact absurd h (by simp)
      · rename_i p hp
        simp only [Except.ok.injEq] at h
        exact ⟨data, h ▸ hp⟩

/-- Every record produced by `fromJson` comes out of `fromDict`. -/
theorem fromJson_ok (doc : PyDict) (q : MotionParameters) (h : fromJson doc = .ok q) :
    ∃ data, fromDict data = .ok q := by
  unfold fromJson at h
  split at h
  · exact absurd h (by simp)
  · rename_i data heq1
    split at h
    · exact absurd h (by simp)
    · split at h
      · exact absurd h (by simp)
      · rename_i p hp
        simp only [Except.ok.injEq] at h
        exact ⟨data, h ▸ hp⟩

/-- Construction from the default raw inputs succeeds and yields `p225`. -/
theorem mk_defaultRaw : mkMotionParameters defaultRaw = .ok p225 := by
  unfold mkMotionParameters normalizeCam validate defaultRaw p225
  norm_num

/-- C1: every `ParameterSet` construction that succeeds — from direct fields
or from deserialized text — produces a record satisfying
`cam_duration = rise_duration + dwell_duration + fall_duration`, with any
caller-supplied `cam_duration` overwritten by this sum. -/
theorem c1_cam_duration_invariant :
    (∀ p q, mkMotionParameters p = .ok q →
      q.cam_duration = q.rise_duration + q.dwell_duration + q.fall_duration) ∧
    (∀ doc q, fromToml doc = .ok q →
      q.cam_duration = q.rise_duration + q.dwell_duration + q.fall_duration) ∧
    (∀ doc q, fromJson doc = .ok q →
      q.cam_duration = q.rise_duration + q.dwell_duration + q.fall_duration) := by
  have hmk : ∀ p q, mkMotionParameters p = .ok q →
      q.cam_duration = q.rise_duration + q.dwell_duration + q.fall_duration := by
    intro p q h
    obtain ⟨hq, -⟩ := mkMotionParameters_ok p q h
    subst hq
    rfl
  refine ⟨hmk, ?_, ?_⟩
  · intro doc q h
    obtain ⟨data, hd⟩ := fromToml_ok doc q h
    obtain ⟨r, hr⟩ := fromDict_ok data q hd
    exact hmk r q hr
  · intro doc q h
    obtain ⟨data, hd⟩ := fromJson_ok doc q h
    obtain ⟨r, hr⟩ := fromDict_ok data q hd
    exact hmk r q hr

/-- Witness for C1: the default inputs carry `cam_duration = 180`, the
constructed record carries the recomputed sum `225`. -/
theorem c1_cam_duration_invariant_witness :
    mkMotionParameters defaultRaw = .ok p225 ∧
      p225.cam_duration = p225.rise_duration + p225.dwell_duration + p225.fall_duration :=
  ⟨mk_defaultRaw, c1_cam_duration_invariant.1 defaultRaw p225 mk_defaultRaw⟩

/-- C2 counterexample: the claim says a summed duration of 0 (all three
segment durations zero) fails `ParameterSet` construction; in the code
`MotionParameters.validate` has no lower bound on the sum, so construction
succeeds.  Only the separate `MotionLaw` constructor rejects it. -/
theorem c2_zero_sum_accepted :
    mkMotionParameters ⟨25, 10, 180, 0, 0, 0, 1000, 500, 100, 3000⟩ =
      .ok ⟨25, 10, 0, 0, 0, 0, 1000, 500, 100, 3000⟩ ∧
    motionLawValidate ⟨25, 10, 0, 0, 0, 0, 1000, 500, 100, 3000⟩ =
      .error "Total cam duration must be positive" := by
  constructor
  · unfold mkMotionParameters normalizeCam validate
    norm_num
  · unfold motionLawValidate
    norm_num

/-- Helper: exact characterisation of construction failure. -/
theorem mkMotionParameters_error_iff (p : MotionParameters) :
    (∃ e, mkMotionParameters p = .error e) ↔
      (p.base_circle_radius ≤ 0 ∨ p.max_lift ≤ 0 ∨ p.rpm ≤ 0 ∨
       p.rise_duration < 0 ∨ p.dwell_duration < 0 ∨ p.fall_duration < 0 ∨
       360 < p.rise_duration + p.dwell_duration + p.fall_duration) := by
  have hfields : validate (normalizeCam p) = .ok () ↔
      (0 < p.base_circle_radius ∧ 0 < p.max_lift ∧ 0 ≤ p.rise_duration ∧
       0 ≤ p.dwell_duration ∧ 0 ≤ p.fall_duration ∧ 0 < p.rpm ∧
       p.rise_duration + p.dwell_duration + p.fall_duration ≤ 360) :=
    validate_ok_iff (normalizeCam p)
  constructor
  · rintro ⟨e, he⟩
    by_contra hc
    push_neg at hc
    obtain ⟨h1, h2, h3, h4, h5, h6, h7⟩ := hc
    have hok : validate (normalizeCam p) = .ok () :=
      hfields.mpr ⟨h1, h2, h4, h5, h6, h3, h7⟩
    unfold mkMotionParameters at he
    rw [hok] at he
    exact absurd he (by simp)
  · intro hdisj
    cases hv : validate (normalizeCam p) with
    | error e => exact ⟨e, by unfold mkMotionParameters; rw [hv]⟩
    | ok u =>
      cases u
      exfalso
      obtain ⟨h1, h2, h3, h4, h5, h6, h7⟩ := hfields.mp hv
      rcases hdisj with h | h | h | h | h | h | h <;> linarith

/-- C2 amended: `ParameterSet` construction fails with a validation error
exactly when `base_circle_radius ≤ 0`, `max_lift ≤ 0`, `rpm ≤ 0`, one of the
three segment durations is negative, or the summed duration exceeds 360; a
summed duration of 0 passes `ParameterSet` construction (the positivity check
on the sum lives only in the `MotionLaw` constructor). -/
theorem c2_construction_failure_iff (p : MotionParameters) :
    (∃ e, mkMotionParameters p = .error e) ↔
      (p.base_circle_radius ≤ 0 ∨ p.max_lift ≤ 0 ∨ p.rpm ≤ 0 ∨
       p.rise_duration < 0 ∨ p.dwell_duration < 0 ∨ p.fall_duration < 0 ∨
       360 < p.rise_duration + p.dwell_duration + p.fall_duration) :=
  mkMotionParameters_error_iff p

/-- Witness for C2 as amended: a summed duration of 400 > 360 fails
construction. -/
theorem c2_construction_failure_iff_witness :
    ∃ e, mkMotionParameters ⟨25, 10, 180, 200, 100, 100, 1000, 500, 100, 3000⟩ =
      .error e :=
  (c2_construction_failure_iff ⟨25, 10, 180, 200, 100, 100, 1000, 500, 100, 3000⟩).mpr
    (by norm_num)

/-- C3: for every cam angle whose reduction modulo 360 lies strictly inside
the dwell window, velocity, acceleration, and jerk are exactly 0 and
displacement is exactly `max_lift`. -/
theorem c3_dwell_zeroing (p : MotionParameters) (hv : validate p = .ok ()) (θ : ℝ)
    (h1 : p.rise_duration < thetaNorm θ)
    (h2 : thetaNorm θ < p.rise_duration + p.dwell_duration) :
    velocity p θ = 0 ∧ acceleration p θ = 0 ∧ jerk p θ = 0 ∧
      displacement p θ = p.max_lift := by
  have hn1 : ¬(thetaNorm θ ≤ p.rise_duration) := not_le.mpr h1
  have hn2 : thetaNorm θ ≤ p.rise_duration + p.dwell_duration := le_of_lt h2
  refine ⟨?_, ?_, ?_, ?_⟩ <;>
    simp [velocity, acceleration, jerk, displacement, hn1, hn2]

/-- Witness for C3: the dwell window of `p225` is `(90, 135)` and `θ = 100`
lies strictly inside it. -/
theorem c3_dwell_zeroing_witness :
    velocity p225 100 = 0 ∧ acceleration p225 100 = 0 ∧ jerk p225 100 = 0 ∧
      displacement p225 100 = p225.max_lift :=
  c3_dwell_zeroing p225 (by norm_num [validate, p225]) 100
    (by rw [thetaNorm_eq_self (by norm_num) (by norm_num)]; norm_num [p225])
    (by rw [thetaNorm_eq_self (by norm_num) (by norm_num)]; norm_num [p225])

/-- C10: for a validated parameter set whose total duration is strictly below
360, every angle whose reduction modulo 360 falls strictly between the total
duration and 360 gives zero displacement, velocity, acceleration and jerk
(the follower sits at the base circle in the gap after the fall segment). -/
theorem c10_gap_zeroing (p : MotionParameters) (hv : validate p = .ok ()) (θ : ℝ)
    (hlt : totalDuration p < 360)
    (h1 : totalDuration p < thetaNorm θ) (h2 : thetaNorm θ < 360) :
    displacement p θ = 0 ∧ velocity p θ = 0 ∧ acceleration p θ = 0 ∧
      jerk p θ = 0 := by
  obtain ⟨-, -, hr, hd, hf, -, -⟩ := (validate_ok_iff p).mp hv
  unfold totalDuration at h1
  have hn1 : ¬(thetaNorm θ ≤ p.rise_duration) := not_le.mpr (by linarith)
  have hn2 : ¬(thetaNorm θ ≤ p.rise_duration + p.dwell_duration) :=
    not_le.mpr (by linarith)
  have hn3 : ¬(thetaNorm θ ≤ totalDuration p) := by
    unfold totalDuration; exact not_le.mpr (by linarith)
  refine ⟨?_, ?_, ?_, ?_⟩ <;>
    simp [displacement, velocity, acceleration, jerk, hn1, hn2, hn3]

/-- Witness for C10: the total duration of `p225` is 225 and `θ = 300` lies
strictly between 225 and 360. -/
theorem c10_gap_zeroing_witness :
    displacement p225 300 = 0 ∧ velocity p225 300 = 0 ∧
      acceleration p225 300 = 0 ∧ jerk p225 300 = 0 :=
  c10_gap_zeroing p225 (by norm_num [validate, p225]) 300
    (by norm_num [totalDuration, p225])
    (by rw [thetaNorm_eq_self (by norm_num) (by norm_num)]
        norm_num [totalDuration, p225])
    (by rw [thetaNorm_eq_self (by norm_num) (by norm_num)]; norm_num)

/-- C5: the concrete scenario `base_circle_radius = 25`, `max_lift = 10`,
`rise = 90`, `dwell = 45`, `fall = 90`, `rpm = 3000` (the record `p225`):
`displacement 0 = 0`, `displacement 90 = 10` within `1e-9` (exactly, in
fact), `displacement 135 = 10` exactly, `displacement 225 = 0` within
`1e-9` (exactly, in fact). -/
theorem c5_concrete_displacements :
    displacement p225 0 = 0 ∧
    |displacement p225 90 - 10| ≤ 1e-9 ∧
    displacement p225 135 = 10 ∧
    |displacement p225 225 - 0| ≤ 1e-9 := by
  have h0 : thetaNorm 0 = 0 := thetaNorm_eq_self le_rfl (by norm_num)
  have h90 : thetaNorm 90 = 90 := thetaNorm_eq_self (by norm_num) (by norm_num)
  have h135 : thetaNorm 135 = 135 := thetaNorm_eq_self (by norm_num) (by norm_num)
  have h225 : thetaNorm 225 = 225 := thetaNorm_eq_self (by norm_num) (by norm_num)
  refine ⟨?_, ?_, ?_, ?_⟩
  · norm_num [displacement, p225, h0, Real.sin_zero]
  · norm_num [displacement, p225, h90, mul_one, Real.sin_two_pi]
  · norm_num [displacement, p225, h135]
  · norm_num [displacement, p225, h225, totalDuration, mul_one, Real.sin_two_pi]

/-- C4: for a symmetric profile (`rise_duration = fall_duration > 0`) and a
progress fraction `β ∈ (0, 1]`, acceleration at the rise-segment angle
`β · rise_duration` equals acceleration at the fall-segment angle
`rise_duration + dwell_duration + β · fall_duration` (same sign and
magnitude), while velocity at those two angles has equal magnitude and
opposite sign. -/
theorem c4_symmetry (p : MotionParameters) (hv : validate p = .ok ())
    (hsym : p.rise_duration = p.fall_duration) (hpos : 0 < p.rise_duration)
    (β : ℝ) (hβ0 : 0 < β) (hβ1 : β ≤ 1) :
    acceleration p (β * p.rise_duration) =
      acceleration p (p.rise_duration + p.dwell_duration + β * p.fall_duration) ∧
    velocity p (β * p.rise_duration) =
      -velocity p (p.rise_duration + p.dwell_duration + β * p.fall_duration) := by
  obtain ⟨-, -, -, hd0, hf0, -, ht⟩ := (validate_ok_iff p).mp hv
  have hfall : p.fall_duration = p.rise_duration := hsym.symm
  have hfpos : 0 < p.fall_duration := hfall ▸ hpos
  rw [hfall] at ht ⊢
  have hβd_pos : 0 < β * p.rise_duration := mul_pos hβ0 hpos
  have hβd_le : β * p.rise_duration ≤ p.rise_duration :=
    mul_le_of_le_one_left (le_of_lt hpos) hβ1
  have hd180 : p.rise_duration ≤ 180 := by linarith
  have hθr_norm : thetaNorm (β * p.rise_duration) = β * p.rise_duration :=
    thetaNorm_eq_self (le_of_lt hβd_pos) (by linarith)
  have hrise_cond : thetaNorm (β * p.rise_duration) ≤ p.rise_duration := by
    rw [hθr_norm]; exact hβd_le
  have hβ_cancel : β * p.rise_duration / p.rise_duration = β :=
    mul_div_cancel_right₀ β (ne_of_gt hpos)
  -- the fall-segment angle
  set θf : ℝ := p.rise_duration + p.dwell_duration + β * p.rise_duration with hθf
  have hθf_pos : 0 < θf := by rw [hθf]; linarith
  have hθf_le : θf ≤ 360 := by rw [hθf]; linarith
  rcases lt_or_eq_of_le hθf_le with hθf_lt | hθf_360
  · -- the fall-segment angle stays below 360 and lands in the fall mask
    have hθf_norm : thetaNorm θf = θf := thetaNorm_eq_self (le_of_lt hθf_pos) hθf_lt
    have hnf1 : ¬(thetaNorm θf ≤ p.rise_duration) := by
      rw [hθf_norm, hθf]; exact not_le.mpr (by linarith)
    have hnf2 : ¬(thetaNorm θf ≤ p.rise_duration + p.dwell_duration) := by
      rw [hθf_norm, hθf]; exact not_le.mpr (by linarith)
    have hnf3 : thetaNorm θf ≤ totalDuration p := by
      rw [hθf_norm, hθf]; unfold totalDuration; rw [hfall]; linarith
    have hβf_cancel :
        (thetaNorm θf - (p.rise_duration + p.dwell_duration)) / p.rise_duration = β := by
      rw [hθf_norm, hθf]
      field_simp
    constructor
    · simp only [acceleration]
      rw [if_pos hrise_cond, if_neg hnf1, if_neg hnf2, if_pos hnf3,
        hθr_norm, hβ_cancel, hfall, hβf_cancel]
    · simp only [velocity]
      rw [if_pos hrise_cond, if_neg hnf1, if_neg hnf2, if_pos hnf3,
        hθr_norm, hβ_cancel, hfall, hβf_cancel]
      ring
  · -- boundary case: the fall-segment angle is exactly 360, so it reduces
    -- to 0 and lands at the start of the rise mask; both sides vanish
    have hβd_eq : β * p.rise_duration = p.rise_duration :=
      le_antisymm hβd_le (by rw [hθf] at hθf_360; linarith)
    have hβ_one : β = 1 :=
      mul_right_cancel₀ (ne_of_gt hpos) (hβd_eq.trans (one_mul _).symm)
    have hθf_norm : thetaNorm θf = 0 := by
      rw [hθf_360]
      unfold thetaNorm
      norm_num
    have hrise0 : thetaNorm θf ≤ p.rise_duration := by
      rw [hθf_norm]; exact le_of_lt hpos
    constructor
    · simp only [acceleration]
      rw [if_pos hrise_cond, if_pos hrise0, hθr_norm, hβ_cancel, hθf_norm, hβ_one]
      norm_num [Real.sin_two_pi]
    · simp only [velocity]
      rw [if_pos hrise_cond, if_pos hrise0, hθr_norm, hβ_cancel, hθf_norm, hβ_one]
      norm_num [Real.cos_two_pi]

/-- Witness for C4: the symmetric profile `p225` at progress `β = 1/2`. -/
theorem c4_symmetry_witness :
    acceleration p225 (1 / 2 * p225.rise_duration) =
      acceleration p225
        (p225.rise_duration + p225.dwell_duration + 1 / 2 * p225.fall_duration) ∧
    velocity p225 (1 / 2 * p225.rise_duration) =
      -velocity p225
        (p225.rise_duration + p225.dwell_duration + 1 / 2 * p225.fall_duration) :=
  c4_symmetry p225 (by norm_num [validate, p225]) (by norm_num [p225])
    (by norm_num [p225]) (1 / 2) (by norm_num) (by norm_num)

/-- Renormalising a record whose `cam_duration` already equals the segment
sum changes nothing. -/
theorem normalizeCam_eq_self (p : MotionParameters)
    (hc : p.cam_duration = p.rise_duration + p.dwell_duration + p.fall_duration) :
    normalizeCam p = p := by
  unfold normalizeCam
  cases p
  simp_all

/-- Reconstructing an already-normalised, already-valid record succeeds and
returns it unchanged. -/
theorem mk_self (p : MotionParameters)
    (hc : p.cam_duration = p.rise_duration + p.dwell_duration + p.fall_duration)
    (hv : validate p = .ok ()) :
    mkMotionParameters p = .ok p := by
  unfold mkMotionParameters
  rw [normalizeCam_eq_self p hc, hv]

/-- C6: for every parameter record produced by a successful construction,
deserialising its serialisation returns it unchanged field-for-field
(including the derived `cam_duration`), for the TOML-like and the JSON-like
encodings alike. -/
theorem c6_roundtrip (p₀ p : MotionParameters)
    (h : mkMotionParameters p₀ = .ok p) :
    fromToml (toToml p) = .ok p ∧ fromJson (toJson p) = .ok p := by
  obtain ⟨hq, hvq⟩ := mkMotionParameters_ok p₀ p h
  have hc : p.cam_duration = p.rise_duration + p.dwell_duration + p.fall_duration := by
    rw [hq]; rfl
  have hself : mkMotionParameters p = .ok p := mk_self p hc hvq
  constructor
  · have hred : fromToml (toToml p) =
        (match mkMotionParameters p with
          | .error e => Except.error ("Error parsing TOML: " ++ e)
          | .ok q => Except.ok q) := rfl
    rw [hred, hself]
  · have hred : fromJson (toJson p) =
        (match mkMotionParameters p with
          | .error e => Except.error ("Error parsing JSON: " ++ e)
          | .ok q => Except.ok q) := rfl
    rw [hred, hself]

/-- Witness for C6: the record built from the default inputs round-trips
through both encodings. -/
theorem c6_roundtrip_witness :
    fromToml (toToml p225) = .ok p225 ∧ fromJson (toJson p225) = .ok p225 :=
  c6_roundtrip defaultRaw p225 mk_defaultRaw

/-- C8 counterexample: the claim says evaluation has no runtime failure
mode, naming `rise_duration = 0` with positive total duration at `θ = 0` as
an example.  At exactly that input the validated record `p0rise` makes the
rise mask fire, and the plain Python scalar division
`dbeta_dtheta = 1.0 / rise_duration` raises `ZeroDivisionError` in
`velocity`, `acceleration`, and `jerk` (only `displacement`, whose divisions
are all NumPy array operations, is exception-free). -/
theorem c8_zero_rise_division_error :
    validate p0rise = .ok () ∧
    velocityN p0rise 0 = .error "float division by zero" ∧
    accelerationN p0rise 0 = .error "float division by zero" ∧
    jerkN p0rise 0 = .error "float division by zero" := by
  have h0 : thetaNorm 0 = 0 := thetaNorm_eq_self le_rfl (by norm_num)
  refine ⟨by norm_num [validate, p0rise], ?_, ?_, ?_⟩ <;>
    norm_num [velocityN, accelerationN, jerkN, p0rise, h0]

/-- C8 amended: for every validated parameter record and every cam angle
(reduced modulo 360 first), evaluating `displacement` succeeds with no
runtime failure mode (its divisions are NumPy array operations, yielding NaN
rather than an exception on a zero denominator); `velocity`,
`acceleration`, and `jerk` also succeed except in the single case
`rise_duration = 0` with the angle reducing to 0 mod 360, where the scalar
division `1.0 / rise_duration` raises `ZeroDivisionError` (a zero
`fall_duration` makes the fall mask unreachable, so it never raises). -/
theorem c8_runtime_failure_characterized (p : MotionParameters)
    (hv : validate p = .ok ()) (θ : ℝ) :
    (∃ v, displacementN p θ = .ok v) ∧
    ((p.rise_duration ≠ 0 ∨ thetaNorm θ ≠ 0) →
      (∃ v, velocityN p θ = .ok v) ∧ (∃ v, accelerationN p θ = .ok v) ∧
        (∃ v, jerkN p θ = .ok v)) := by
  have hθ0 : 0 ≤ thetaNorm θ := thetaNorm_nonneg θ
  constructor
  · simp only [displacementN]
    split_ifs <;> exact ⟨_, rfl⟩
  · intro hor
    refine ⟨?_, ?_, ?_⟩ <;>
    · simp only [velocityN, accelerationN, jerkN]
      split_ifs with h1 h2 h3 h4 h5
      · rcases hor with hne | hne
        · exact absurd h2 hne
        · exact absurd (le_antisymm (h2 ▸ h1) hθ0) hne
      · exact ⟨_, rfl⟩
      · exact ⟨_, rfl⟩
      · exfalso
        unfold totalDuration at h4
        rw [h5] at h4
        push_neg at h3
        linarith
      · exact ⟨_, rfl⟩
      · exact ⟨_, rfl⟩

/-- Witness for C8 as amended: `displacement` returns a value even at the
failing configuration (`p0rise`, `θ = 0`), and all four functions return
values for `p225` at `θ = 100`. -/
theorem c8_runtime_failure_characterized_witness :
    (∃ v, displacementN p0rise 0 = .ok v) ∧
      (∃ v, velocityN p225 100 = .ok v) :=
  ⟨(c8_runtime_failure_characterized p0rise (by norm_num [validate, p0rise]) 0).1,
   ((c8_runtime_failure_characterized p225 (by norm_num [validate, p225]) 100).2
     (Or.inl (by norm_num [p225]))).1⟩

/-- C9 counterexample: the claim says a document whose mandatory field holds
a boolean is rejected as non-numeric.  In the code the
`isinstance(value, (int, float))` check accepts booleans (Python `bool` is a
subclass of `int`), so the document parses, `max_lift = True` is accepted,
behaves as the number 1, and construction succeeds. -/
theorem c9_bool_accepted :
    fromToml boolDoc = .ok ⟨25, 1, 225, 90, 45, 90, 1000, 500, 100, 3000⟩ := by
  have h1 : fromToml boolDoc =
      (match mkMotionParameters ⟨25, 1, 180, 90, 45, 90, 1000, 500, 100, 3000⟩ with
        | .error e => Except.error ("Error parsing TOML: " ++ e)
        | .ok q => Except.ok q) := rfl
  have h2 : mkMotionParameters ⟨25, 1, 180, 90, 45, 90, 1000, 500, 100, 3000⟩ =
      .ok ⟨25, 1, 225, 90, 45, 90, 1000, 500, 100, 3000⟩ := by
    unfold mkMotionParameters normalizeCam validate
    norm_num
  rw [h1, h2]

/-- C9 amended: before construction, deserialisation checks that every one
of the six mandatory fields is present and passes the numeric `isinstance`
test, failing with an error naming the offending field (re-wrapped by the
`from_toml`/`from_json` handlers, distinct from the parse-error wording);
however the numeric test counts booleans as numbers, because Python `bool`
is a subclass of `int`, so a boolean-valued mandatory field is accepted. -/
theorem c9_field_validation (data : PyDict) :
    validateData data = .ok () ↔
      ∀ f ∈ requiredFields, ∃ v, pyLookup data f = some v ∧ isPyNumber v = true := by
  constructor
  · intro h f hf
    unfold validateData at h
    cases hA : requiredFields.find? (fun f => (pyLookup data f).isNone) with
    | some g => rw [hA] at h; exact absurd h (by simp)
    | none =>
      rw [hA] at h
      cases hB : requiredFields.find?
          (fun f => match pyLookup data f with
            | some v => !(isPyNumber v)
            | none => false) with
      | some g => rw [hB] at h; exact absurd h (by simp)
      | none =>
        have h1 := List.find?_eq_none.mp hA f hf
        cases hv : pyLookup data f with
        | none => rw [hv] at h1; simp at h1
        | some v =>
          refine ⟨v, rfl, ?_⟩
          have h2 := List.find?_eq_none.mp hB f hf
          rw [hv] at h2
          simpa using h2
  · intro hall
    unfold validateData
    have hA : requiredFields.find? (fun f => (pyLookup data f).isNone) = none := by
      rw [List.find?_eq_none]
      intro f hf
      obtain ⟨v, hv, -⟩ := hall f hf
      simp [hv]
    rw [hA]
    have hB : requiredFields.find?
        (fun f => match pyLookup data f with
          | some v => !(isPyNumber v)
          | none => false) = none := by
      rw [List.find?_eq_none]
      intro f hf
      obtain ⟨v, hv, hnum⟩ := hall f hf
      simp [hv, hnum]
    rw [hB]

/-- Witness for C9 as amended: a map with a number in every mandatory field
passes the pre-construction field validation. -/
theorem c9_field_validation_witness : validateData goodData = .ok () :=
  (c9_field_validation goodData).mpr
    (by intro f hf; fin_cases hf <;> exact ⟨_, rfl, rfl⟩)

/-- C7 counterexample: the claim says any error other than a
candidate-construction validation error (for example an unknown
`objective_type` name) propagates to the caller.  In the code the handler is
`except Exception`: with a valid candidate and the unknown objective name
`"bogus"`, the internal computation raises `ValueError("Unknown objective
type: bogus")` and the handler converts it to the sentinel `1e6` instead of
propagating it. -/
theorem c7_unknown_objective_masked :
    objectiveCompute defaultRaw 10 90 90 "bogus" =
      .error "Unknown objective type: bogus" ∧
    objectiveFunction defaultRaw 10 90 90 "bogus" = 1000000 := by
  have hrec : (⟨defaultRaw.base_circle_radius, (10 : ℝ), 180, 90,
      defaultRaw.dwell_duration, 90, defaultRaw.jerk_limit,
      defaultRaw.acceleration_limit, defaultRaw.velocity_limit,
      defaultRaw.rpm⟩ : MotionParameters) = defaultRaw := rfl
  have hml : motionLawValidate p225 = .ok () := by
    norm_num [motionLawValidate, p225]
  have hc : objectiveCompute defaultRaw 10 90 90 "bogus" =
      .error "Unknown objective type: bogus" := by
    unfold objectiveCompute
    rw [hrec, mk_defaultRaw]
    simp [Bind.bind, Except.bind, hml]
  exact ⟨hc, by unfold objectiveFunction; rw [hc]⟩

/-- C7 amended: the objective function converts a validation failure of the
speculative candidate construction into the large finite sentinel `1e6`
(so the sum-over-360 candidate never propagates an error); however its
handler is `except Exception`, so every other raised error — an unknown
`objective_type` name included — is converted to the same sentinel rather
than propagated. -/
theorem c7_sentinel_on_any_error :
    (∀ (base : MotionParameters) (x0 x1 x2 : ℝ) (t : String) (e : String),
        objectiveCompute base x0 x1 x2 t = .error e →
        objectiveFunction base x0 x1 x2 t = 1000000) ∧
    (∀ (base : MotionParameters) (x0 x1 x2 : ℝ) (t : String),
        360 < x1 + base.dwell_duration + x2 →
        objectiveFunction base x0 x1 x2 t = 1000000) ∧
    (∀ (base : MotionParameters) (x0 x1 x2 : ℝ) (t : String),
        t ≠ "rms_acceleration" → t ≠ "max_jerk" → t ≠ "energy" →
        objectiveFunction base x0 x1 x2 t = 1000000) := by
  have herr : ∀ (base : MotionParameters) (x0 x1 x2 : ℝ) (t : String) (e : String),
      objectiveCompute base x0 x1 x2 t = .error e →
      objectiveFunction base x0 x1 x2 t = 1000000 := by
    intro base x0 x1 x2 t e h
    unfold objectiveFunction
    rw [h]
  refine ⟨herr, ?_, ?_⟩
  · intro base x0 x1 x2 t hsum
    obtain ⟨e, he⟩ := (mkMotionParameters_error_iff
      ⟨base.base_circle_radius, x0, 180, x1, base.dwell_duration, x2,
       base.jerk_limit, base.acceleration_limit, base.velocity_limit,
       base.rpm⟩).mpr (by right; right; right; right; right; right; exact hsum)
    refine herr base x0 x1 x2 t e ?_
    unfold objectiveCompute
    rw [he]
    rfl
  · intro base x0 x1 x2 t h1 h2 h3
    cases hmk : mkMotionParameters
        ⟨base.base_circle_radius, x0, 180, x1, base.dwell_duration, x2,
         base.jerk_limit, base.acceleration_limit, base.velocity_limit,
         base.rpm⟩ with
    | error e =>
      refine herr base x0 x1 x2 t e ?_
      unfold objectiveCompute
      rw [hmk]
      rfl
    | ok params =>
      cases hml : motionLawValidate params with
      | error e =>
        refine herr base x0 x1 x2 t e ?_
        unfold objectiveCompute
        rw [hmk]
        simp [Bind.bind, Except.bind, hml]
      | ok u =>
        cases u
        refine herr base x0 x1 x2 t ("Unknown objective type: " ++ t) ?_
        unfold objectiveCompute
        rw [hmk]
        simp [Bind.bind, Except.bind, hml, h1, h2, h3]

/-- Witness for C7 as amended: a candidate whose summed duration
`200 + 45 + 200 = 445` exceeds 360 fails validation and yields the
sentinel. -/
theorem c7_sentinel_on_any_error_witness :
    objectiveFunction defaultRaw 10 200 200 "rms_acceleration" = 1000000 :=
  c7_sentinel_on_any_error.2.1 defaultRaw 10 200 200 "rms_acceleration"
    (by norm_num [defaultRaw])

end CamPro
